import Mathlib

/-!
Verification of the business-entity normalization core of the YELPH backend
(`src/backend/yelp_service.py`: `YelpAIService._parse_business` and
`YelpAIService._extract_businesses`), of the canonical `Business` model
(`src/backend/models.py`), and of the OAuth callback handler
(`src/backend/main.py`: `calendar_auth_callback`).

The Python code manipulates untyped JSON-like values, so the embedding is
built on a `JSON` inductive together with executable models of the exact
Python operations the source uses (`in` containment, `dict.get`,
subscripting, truthiness, iteration, `hash`).  Python exceptions are
modelled with `Except String`; the blanket `try/except` wrappers of the
source become explicit recoveries on the `Except` value.

CPython's built-in `hash` on strings is randomized per process
(PYTHONHASHSEED), so the per-run hash function on hashable atoms is a
parameter `h : JSON → Int` of the functions that use it; a fixed `h`
models one process run.

Numbers are modelled as exact rationals (`ℚ`).  Python's `%.1f`
formatting (used for the distance string) performs correct rounding with
ties-to-even on the underlying binary double; the model `format1f`
performs the same rounding on the exact rational.
-/

/-- A JSON-like Python value: the payload shapes handled by the service. -/
inductive JSON where
  | null : JSON
  | bool : Bool → JSON
  | num : ℚ → JSON
  | str : String → JSON
  | arr : List JSON → JSON
  | obj : List (String × JSON) → JSON
deriving Repr

/-- Python dict lookup on an association list: first binding wins
(real Python dicts have unique keys; first-match is the faithful reading). -/
def lookupFs (fs : List (String × JSON)) (k : String) : Option JSON :=
  (fs.find? (fun p => p.1 == k)).map (fun p => p.2)

/-- Membership `k in d` for a Python dict `d`. -/
def containsKey (fs : List (String × JSON)) (k : String) : Bool :=
  (lookupFs fs k).isSome

/-- Whether `n` occurs as a contiguous substring of `s`
(Python `needle in string`). -/
def infixCheck (n : List Char) : List Char → Bool
  | [] => n.isEmpty
  | c :: cs => n.isPrefixOf (c :: cs) || infixCheck n cs

def pyStrContains (needle s : String) : Bool :=
  infixCheck needle.data s.data

/-- Python truthiness of a JSON value (`bool(x)`). -/
def truthy : JSON → Bool
  | .null => false
  | .bool b => b
  | .num q => decide (q ≠ 0)
  | .str s => decide (s ≠ "")
  | .arr xs => !xs.isEmpty
  | .obj fs => !fs.isEmpty

/-- Test `isinstance(x, dict)`. -/
def JSON.isObj : JSON → Bool
  | .obj _ => true
  | _ => false

/-- Test `isinstance(x, list)`. -/
def JSON.isArr : JSON → Bool
  | .arr _ => true
  | _ => false

/-- Hashable atoms: Python rejects `hash` on lists and dicts. -/
def isHashable : JSON → Bool
  | .arr _ => false
  | .obj _ => false
  | _ => true

/-- The Python membership test `k in x`.  On a dict it is key membership,
on a string a substring test, on a list membership by equality (a string
is `==` only to an equal string); on numbers, booleans and `None` it
raises `TypeError`. -/
def pyContains (x : JSON) (k : String) : Except String Bool :=
  match x with
  | .obj fs => .ok (containsKey fs k)
  | .str s => .ok (pyStrContains k s)
  | .arr xs => .ok (xs.any (fun j => match j with
      | .str t => t == k
      | _ => false))
  | _ => .error "TypeError: argument of type is not iterable"

/-- Subscripting `x[k]` with a string key: on a dict a lookup that raises
`KeyError` when absent; on anything else `TypeError`. -/
def pySubscript (x : JSON) (k : String) : Except String JSON :=
  match x with
  | .obj fs =>
    match lookupFs fs k with
    | some v => .ok v
    | none => .error "KeyError"
  | _ => .error "TypeError: indices must be integers"

/-- The method call `x.get(k, d)`: only dicts have `.get`; a present key
returns its stored value even when that value is `None`. -/
def pyGet (x : JSON) (k : String) (d : JSON) : Except String JSON :=
  match x with
  | .obj fs => .ok ((lookupFs fs k).getD d)
  | _ => .error "AttributeError: object has no attribute get"

/-- Python iteration `for v in x`: a list yields its elements, a string its
characters (as one-character strings), a dict its keys; numbers, booleans
and `None` raise `TypeError`. -/
def pyIter : JSON → Except String (List JSON)
  | .arr xs => .ok xs
  | .str s => .ok (s.data.map (fun c => .str (String.singleton c)))
  | .obj fs => .ok (fs.map (fun p => .str p.1))
  | _ => .error "TypeError: object is not iterable"

/-- Model of `hash(v)` for one process run, `h` being that run's built-in hash on
hashable atoms (for strings it is randomized per process by
PYTHONHASHSEED); lists and dicts are unhashable. -/
def pyHashVal (h : JSON → Int) (v : JSON) : Except String Int :=
  match v with
  | .arr _ => .error "TypeError: unhashable type"
  | .obj _ => .error "TypeError: unhashable type"
  | _ => .ok (h v)

/-- Multiplication `v * c` for a float constant `c`: numbers multiply, booleans coerce to
0/1, every other operand raises `TypeError`. -/
def pyMulFloat (v : JSON) (c : ℚ) : Except String ℚ :=
  match v with
  | .num q => .ok (q * c)
  | .bool b => .ok ((if b then (1 : ℚ) else 0) * c)
  | _ => .error "TypeError: unsupported operand type for *"

/-- The meters-to-miles factor `0.000621371` of `_parse_business`. -/
def mileFactor : ℚ := 621371 / 1000000000

/-- Floor of a rational, computed by floor-division of the numerator by
the (positive) denominator so that kernel reduction works. -/
def ratFloor (q : ℚ) : ℤ := q.num.fdiv (q.den : ℤ)

/-- Correct rounding to the nearest integer with ties-to-even, as Python's
`%.1f` formatting applies (on the exact rational in this model). -/
def roundHalfEven (q : ℚ) : ℤ :=
  let f : ℤ := ratFloor q
  let frac : ℚ := q - (f : ℚ)
  if frac < 1 / 2 then f
  else if 1 / 2 < frac then f + 1
  else if f % 2 = 0 then f else f + 1

/-- Python `format(q, ".1f")`: one digit after the decimal point. -/
def format1f (q : ℚ) : String :=
  let n : ℤ := roundHalfEven (q * 10)
  let a : ℕ := n.natAbs
  (if n < 0 then "-" else "") ++ toString (a / 10) ++ "." ++ toString (a % 10)

/-- Model of `Coordinates` from `src/backend/models.py`: latitude/longitude floats. -/
structure Coordinates where
  latitude : ℚ
  longitude : ℚ
deriving Repr

/-- Model of `Business` from `src/backend/models.py`: the canonical record produced by
normalization.  Field names follow the pydantic model (`reviews` has the
alias `review_count`, `image` the alias `image_url`; `_parse_business`
passes the alias keywords, accepted via `populate_by_name`). -/
structure Business where
  id : String
  name : String
  rating : Option ℚ
  reviews : Option Int
  price : Option String
  distance : Option String
  image : Option String
  tags : List String
  votes : Int
  location : Option (List (String × JSON))
  coordinates : Option Coordinates
  phone : Option String
  url : Option String
  categories : Option (List (List (String × String)))
deriving Repr

/-! Pydantic v2 field validation, to the extent `Business` construction in
`_parse_business` can exercise it.  In lax mode pydantic rejects `None`
and non-strings for `str`, rejects `bool` for numeric fields, accepts
`int` for `float`, and accepts only integral numbers for `int`.
(The lax coercion of numeric strings to numbers is not modelled; no
record considered here carries a numeric string in a numeric field.) -/

def expectStr : JSON → Except String String
  | .str s => .ok s
  | _ => .error "ValidationError: string required"

def expectOptStr : JSON → Except String (Option String)
  | .null => .ok none
  | .str s => .ok (some s)
  | _ => .error "ValidationError: string or None required"

def expectFloat : JSON → Except String ℚ
  | .num q => .ok q
  | _ => .error "ValidationError: float required"

def expectOptFloat : JSON → Except String (Option ℚ)
  | .null => .ok none
  | .num q => .ok (some q)
  | _ => .error "ValidationError: float or None required"

def expectOptInt : JSON → Except String (Option Int)
  | .null => .ok none
  | .num q => if q.den = 1 then .ok (some q.num)
              else .error "ValidationError: integer required"
  | _ => .error "ValidationError: integer or None required"

def expectLocation : JSON → Except String (Option (List (String × JSON)))
  | .null => .ok none
  | .obj fs => .ok (some fs)
  | _ => .error "ValidationError: dict or None required"

def expectCatDict : JSON → Except String (List (String × String))
  | .obj fs => fs.mapM (fun p => (expectStr p.2).map (fun v => (p.1, v)))
  | _ => .error "ValidationError: dict required"

def expectCategories : JSON → Except String (Option (List (List (String × String))))
  | .null => .ok none
  | .arr xs => (xs.mapM expectCatDict).map some
  | _ => .error "ValidationError: list or None required"

/-! The normalizer, `YelpAIService._parse_business`
(`src/backend/yelp_service.py` lines 144-229).  Each contiguous block of
the source is one definition below; `parse_business_core` chains them in
source order, and `parse_business` is the enclosing `try/except` that
turns any exception into the empty result. -/

/-- Lines 159-162: category titles as tags.  The comprehension filters
with `cat.get("title")` (default `None`) and maps `cat.get("title", "")`;
`.get` on a non-dict element raises `AttributeError`. -/
def resolve_tags (d : JSON) : Except String (List JSON) := do
  let hasCats ← pyContains d "categories"
  if hasCats then do
    let catsV ← pySubscript d "categories"
    if truthy catsV then do
      let items ← pyIter catsV
      items.foldlM (fun acc cat => do
        let tf ← pyGet cat "title" .null
        if truthy tf then do
          let tv ← pyGet cat "title" (.str "")
          pure (acc ++ [tv])
        else pure acc) []
    else pure []
  else pure []

/-- The duplicated `photos[0]` handling of lines 177-180 and 186-189:
`original_url` (default `None`) if the first element is a dict, the
element itself otherwise. -/
def pyPhotoFirst (p : JSON) : JSON :=
  match p with
  | .obj pf => (lookupFs pf "original_url").getD .null
  | _ => p

/-- Lines 164-189: image resolution.  An `if`/`elif` chain on key
presence: `image_url` (its value taken verbatim, even `None`), else the
`contextual_info` branch, else the direct `photos` branch; a branch whose
key is present is entered even when it yields no photo. -/
def resolve_image (d : JSON) : Except String JSON := do
  let hasImg ← pyContains d "image_url"
  if hasImg then
    pySubscript d "image_url"
  else do
    let hasCtx ← pyContains d "contextual_info"
    if hasCtx then do
      let ci ← pySubscript d "contextual_info"
      match ci with
      | .obj g =>
        if containsKey g "photos" then
          match (lookupFs g "photos").getD .null with
          | .arr (p :: _) => pure (pyPhotoFirst p)
          | _ => pure .null
        else pure .null
      | _ => pure .null
    else do
      let hasPh ← pyContains d "photos"
      if hasPh then do
        let pv ← pySubscript d "photos"
        if truthy pv then
          match pv with
          | .arr (p :: _) => pure (pyPhotoFirst p)
          | _ => pure .null
        else pure .null
      else pure .null

/-- Lines 191-199: coordinates, present only when `coordinates` is a
truthy dict holding both `latitude` and `longitude` keys. -/
def resolve_coordinates (d : JSON) : Except String (Option (JSON × JSON)) := do
  let cv ← pyGet d "coordinates" .null
  if truthy cv then
    match cv with
    | .obj cf =>
      if containsKey cf "latitude" && containsKey cf "longitude" then
        pure (some ((lookupFs cf "latitude").getD .null,
                    (lookupFs cf "longitude").getD .null))
      else pure none
    | _ => pure none
  else pure none

/-- Lines 201-207: distance string, `meters * 0.000621371` formatted
`.1f` with `" mi"` appended, only when the raw `distance` is present and
truthy. -/
def resolve_distance (d : JSON) : Except String (Option String) := do
  let hasDist ← pyContains d "distance"
  if hasDist then do
    let dm ← pySubscript d "distance"
    if truthy dm then do
      let q ← pyMulFloat dm mileFactor
      pure (some (format1f q ++ " mi"))
    else pure none
  else pure none

/-- Line 210: `entity_data.get("id", entity_data.get("alias",
str(hash(entity_data.get("name")))))`.  Python evaluates the defaults
eagerly, so `hash(name)` runs (and can raise on an unhashable name) even
when `id` is present; a present key's value is used even when `None`. -/
def resolve_id (h : JSON → Int) (d : JSON) : Except String JSON := do
  let nameRaw ← pyGet d "name" .null
  let hv ← pyHashVal h nameRaw
  let aliasV ← pyGet d "alias" (.str (toString hv))
  pyGet d "id" aliasV

/-- Validation of the copied coordinates dict against the `Coordinates`
pydantic model: both sub-fields must be floats. -/
def validateCoords : Option (JSON × JSON) → Except String (Option Coordinates)
  | none => .ok none
  | some (la, lo) => do
      let la2 ← expectFloat la
      let lo2 ← expectFloat lo
      pure (some (Coordinates.mk la2 lo2))

/-- Lines 209-225: the `Business(...)` construction with pydantic
validation of every field; `votes` is forced to `0`. -/
def mkBusiness (d : JSON) (idRaw imageRaw : JSON) (tagsJ : List JSON)
    (coords : Option (JSON × JSON)) (distance : Option String) :
    Except String (List Business) := do
  let id ← expectStr idRaw
  let name ← expectStr (← pyGet d "name" (.str ""))
  let rating ← expectOptFloat (← pyGet d "rating" .null)
  let reviews ← expectOptInt (← pyGet d "review_count" (.num 0))
  let price ← expectOptStr (← pyGet d "price" .null)
  let image ← expectOptStr imageRaw
  let tags ← tagsJ.mapM expectStr
  let location ← expectLocation (← pyGet d "location" .null)
  let coordinates ← validateCoords coords
  let phone ← expectOptStr (← pyGet d "phone" .null)
  let url ← expectOptStr (← pyGet d "url" .null)
  let categories ← expectCategories (← pyGet d "categories" .null)
  pure [Business.mk id name rating reviews price distance image tags 0
          location coordinates phone url categories]

/-- The body of `_parse_business` lines 154-225 (inside the `try`),
chaining the blocks in source order after the `"name" not in entity_data`
rejection check. -/
def parse_business_core (h : JSON → Int) (d : JSON) :
    Except String (List Business) := do
  let hasName ← pyContains d "name"
  if !hasName then
    pure []
  else do
    let tagsJ ← resolve_tags d
    let imageRaw ← resolve_image d
    let coords ← resolve_coordinates d
    let distance ← resolve_distance d
    let idRaw ← resolve_id h d
    mkBusiness d idRaw imageRaw tagsJ coords distance

/-- Function `_parse_business` (lines 144-229): the `try/except Exception` wrapper
recovers from any exception with the empty list, so a record either
contributes one `Business` or nothing. -/
def parse_business (h : JSON → Int) (d : JSON) : List Business :=
  match parse_business_core h d with
  | .ok l => l
  | .error _ => []

/-! The extractor, `YelpAIService._extract_businesses`
(`src/backend/yelp_service.py` lines 109-142).  It has no `try/except`,
so exceptions escaping it are modelled by `.error`. -/

/-- Lines 124-131: handling of one entity of a list-shaped `entities`
value: a dict with a `businesses` key has each element of that value
parsed (iterating a non-iterable raises); a dict with a `name` key is
parsed directly; anything else is skipped. -/
def entityBusinesses (h : JSON → Int) (entity : JSON) :
    Except String (List Business) :=
  match entity with
  | .obj fs =>
    if containsKey fs "businesses" then do
      let bsVal ← pyGet (.obj fs) "businesses" (.arr [])
      let items ← pyIter bsVal
      pure (items.flatMap (parse_business h))
    else if containsKey fs "name" then
      pure (parse_business h (.obj fs))
    else pure []
  | _ => pure []

/-- The accumulation loop of lines 123-132: results of successive
entities are appended in encounter order. -/
def extractList (h : JSON → Int) : List JSON → Except String (List Business)
  | [] => .ok []
  | e :: es => do
      let b ← entityBusinesses h e
      let rest ← extractList h es
      pure (b ++ rest)

/-- Function `_extract_businesses` (lines 109-142): `entities = data.get("entities", [])`,
then the list shape, the legacy dict shape (values that are dicts with a
`name` key are parsed), and the fallback that logs a warning and returns
the empty list for any other shape. -/
def extract_businesses (h : JSON → Int) (data : JSON) :
    Except String (List Business) :=
  match data with
  | .obj fs =>
    match (lookupFs fs "entities").getD (.arr []) with
    | .arr es => extractList h es
    | .obj gs => .ok (gs.flatMap (fun p =>
        match p.2 with
        | .obj g2 => if containsKey g2 "name" then parse_business h (.obj g2) else []
        | _ => []))
    | _ => .ok []
  | _ => .error "AttributeError: object has no attribute get"

/-! Model of the OAuth callback handler `calendar_auth_callback`
(`src/backend/main.py` lines 341-378) and the module-level pending-state
store `oauth_states` (line 308), a mapping from anti-forgery state token
to a dict holding the user id.  The token-exchange collaborator
`calendar_service.exchange_code_for_token` is abstracted as a function
from the authorization code to either a token bundle or a raised error.

The whole handler body sits inside `try: ... except Exception as e:
raise HTTPException(status_code=500, detail=str(e))`.  FastAPI's
`HTTPException` subclasses `Exception`, so the handler's own
`raise HTTPException(status_code=400, detail="Invalid state parameter")`
is caught by that blanket `except` and re-raised as a 500 whose detail is
`str(e)`, which for an `HTTPException` is `"<status>: <detail>"`. -/

/-- Outcome of one callback request: the JSON success payload, or the
HTTP error status ultimately raised to the client. -/
inductive CallbackResult where
  | ok (user_id : String) (tokens : String)
  | httpError (status : Nat) (detail : String)
deriving Repr, DecidableEq

/-- Rendering `str(e)` for a starlette `HTTPException`. -/
def httpExceptionStr (status : Nat) (detail : String) : String :=
  toString status ++ ": " ++ detail

/-- Model of the handler `calendar_auth_callback`.  Returns the result,
whether the token-exchange collaborator was invoked, and the
pending-state store after the request (`oauth_states.pop(state)` removes
a consumed entry). -/
def calendar_auth_callback (exchange : String → Except String String)
    (store : List (String × String)) (code st : String) :
    CallbackResult × Bool × List (String × String) :=
  match store.find? (fun p => p.1 == st) with
  | none =>
      (.httpError 500 (httpExceptionStr 400 "Invalid state parameter"), false, store)
  | some entry =>
      let store2 := store.eraseP (fun p => p.1 == st)
      match exchange code with
      | .ok tokens => (.ok entry.2 tokens, true, store2)
      | .error e => (.httpError 500 e, true, store2)

/-- A fixed per-run string-hash function (one concrete process run). -/
def hzero : JSON → Int := fun _ => 0

/-- A second per-run string-hash function (a different process run). -/
def hone : JSON → Int := fun _ => 1

/-! Helper lemmas. -/

theorem except_bind_ok {α β : Type} {e : Except String α}
    {f : α → Except String β} {b : β}
    (hbind : (e >>= f) = .ok b) : ∃ a, e = .ok a ∧ f a = .ok b := by
  cases e with
  | ok a => exact ⟨a, rfl, hbind⟩
  | error msg => simp [Bind.bind, Except.bind] at hbind

theorem containsKey_true_of_lookup {fs : List (String × JSON)} {k : String}
    {v : JSON} (hlk : lookupFs fs k = some v) : containsKey fs k = true := by
  simp [containsKey, hlk]

theorem containsKey_false_of_lookup {fs : List (String × JSON)} {k : String}
    (hlk : lookupFs fs k = none) : containsKey fs k = false := by
  simp [containsKey, hlk]

theorem pyHashVal_ok {h : JSON → Int} {v : JSON}
    (hv : isHashable v = true) : pyHashVal h v = .ok (h v) := by
  cases v <;> simp_all [isHashable, pyHashVal]

theorem parse_business_no_name {h : JSON → Int} {fs : List (String × JSON)}
    (hlk : lookupFs fs "name" = none) : parse_business h (.obj fs) = [] := by
  have hck := containsKey_false_of_lookup hlk
  simp [parse_business, parse_business_core, pyContains, hck, Bind.bind, Except.bind,
        Pure.pure, Except.pure]

theorem resolve_id_val_of_id_present {h : JSON → Int} {fs : List (String × JSON)}
    {w u : JSON} (hid : lookupFs fs "id" = some w)
    (hok : resolve_id h (.obj fs) = .ok u) : u = w := by
  unfold resolve_id at hok
  rcases except_bind_ok hok with ⟨nameRaw, -, hok⟩
  rcases except_bind_ok hok with ⟨hv, -, hok⟩
  rcases except_bind_ok hok with ⟨aliasV, -, hok⟩
  simp [pyGet, hid] at hok
  exact hok.symm

theorem mkBusiness_ok {d idRaw imageRaw : JSON} {tagsJ : List JSON}
    {coords : Option (JSON × JSON)} {distance : Option String} {l : List Business}
    (hok : mkBusiness d idRaw imageRaw tagsJ coords distance = .ok l) :
    ∃ b, l = [b] := by
  unfold mkBusiness at hok
  repeat rcases except_bind_ok hok with ⟨_, -, hok⟩
  simp [Pure.pure, Except.pure] at hok
  exact ⟨_, hok.symm⟩

theorem mkBusiness_null_id {d imageRaw : JSON} {tagsJ : List JSON}
    {coords : Option (JSON × JSON)} {distance : Option String} {l : List Business}
    (hok : mkBusiness d .null imageRaw tagsJ coords distance = .ok l) : False := by
  unfold mkBusiness at hok
  rcases except_bind_ok hok with ⟨a, ha, -⟩
  simp [expectStr] at ha

theorem parse_business_core_ok_shape {h : JSON → Int} {d : JSON} {l : List Business}
    (hok : parse_business_core h d = .ok l) : l = [] ∨ ∃ b, l = [b] := by
  unfold parse_business_core at hok
  rcases except_bind_ok hok with ⟨hasName, -, hok⟩
  cases hasName with
  | false =>
    simp [Pure.pure, Except.pure] at hok
    exact Or.inl hok
  | true =>
    simp only [Bool.not_true, Bool.false_eq_true, if_false] at hok
    rcases except_bind_ok hok with ⟨tagsJ, -, hok⟩
    rcases except_bind_ok hok with ⟨imageRaw, -, hok⟩
    rcases except_bind_ok hok with ⟨coords, -, hok⟩
    rcases except_bind_ok hok with ⟨distance, -, hok⟩
    rcases except_bind_ok hok with ⟨idRaw, -, hok⟩
    exact Or.inr (mkBusiness_ok hok)

theorem resolve_coordinates_nonobj {d : JSON} (hno : d.isObj = false) :
    resolve_coordinates d = .error "AttributeError: object has no attribute get" := by
  cases d <;>
    simp_all [JSON.isObj, resolve_coordinates, pyGet, Bind.bind, Except.bind]

theorem parse_business_nonobj {h : JSON → Int} {d : JSON}
    (hno : d.isObj = false) : parse_business h d = [] := by
  unfold parse_business
  cases hcore : parse_business_core h d with
  | error m => rfl
  | ok l =>
    unfold parse_business_core at hcore
    rcases except_bind_ok hcore with ⟨hasName, -, hcore⟩
    cases hasName with
    | false =>
      simp [Pure.pure, Except.pure] at hcore
      exact hcore
    | true =>
      simp only [Bool.not_true, Bool.false_eq_true, if_false] at hcore
      rcases except_bind_ok hcore with ⟨tagsJ, -, hcore⟩
      rcases except_bind_ok hcore with ⟨imageRaw, -, hcore⟩
      rcases except_bind_ok hcore with ⟨coords, hcoord, -⟩
      rw [resolve_coordinates_nonobj hno] at hcoord
      simp at hcoord

theorem parse_business_null_id {h : JSON → Int} {fs : List (String × JSON)}
    (hid : lookupFs fs "id" = some .null) :
    parse_business h (.obj fs) = [] := by
  unfold parse_business
  cases hcore : parse_business_core h (.obj fs) with
  | error m => rfl
  | ok l =>
    unfold parse_business_core at hcore
    rcases except_bind_ok hcore with ⟨hasName, -, hcore⟩
    cases hasName with
    | false =>
      simp [Pure.pure, Except.pure] at hcore
      exact hcore
    | true =>
      simp only [Bool.not_true, Bool.false_eq_true, if_false] at hcore
      rcases except_bind_ok hcore with ⟨tagsJ, -, hcore⟩
      rcases except_bind_ok hcore with ⟨imageRaw, -, hcore⟩
      rcases except_bind_ok hcore with ⟨coords, -, hcore⟩
      rcases except_bind_ok hcore with ⟨distance, -, hcore⟩
      rcases except_bind_ok hcore with ⟨idRaw, hid2, hcore⟩
      have : idRaw = JSON.null := resolve_id_val_of_id_present hid hid2
      subst this
      exact absurd hcore (fun hk => mkBusiness_null_id hk)

/-- C2: a callback request whose `state` is not a key of the pending-state
store fails without invoking the token-exchange collaborator — but with
HTTP status 500, not the claimed 400: the handler's own
`HTTPException(400, "Invalid state parameter")` is caught by the blanket
`except Exception` and re-raised as a 500 whose detail embeds the 400. -/
theorem c2_unknown_state_rejected :
    ∀ (exchange : String → Except String String)
      (store : List (String × String)) (code st : String),
      store.find? (fun p => p.1 == st) = none →
      calendar_auth_callback exchange store code st =
        (.httpError 500 "400: Invalid state parameter", false, store) := by
  intro exchange store code st hfind
  have hs : httpExceptionStr 400 "Invalid state parameter" =
      "400: Invalid state parameter" := by decide
  simp [calendar_auth_callback, hfind, hs]

/-- C2 witness: concrete unknown-state request against an empty store. -/
theorem c2_witness :
    calendar_auth_callback (fun c => .ok ("tok" ++ c)) [] "c" "s" =
      (.httpError 500 "400: Invalid state parameter", false, []) :=
  c2_unknown_state_rejected (fun c => .ok ("tok" ++ c)) [] "c" "s" rfl

/-- C4: a raw record without a `name` key is rejected by `_parse_business`,
and a nested `businesses` batch containing such a record extracts to the
same sequence as the batch with that record removed (all other records in
their original relative order). -/
theorem c4_missing_name_rejected :
    (∀ (h : JSON → Int) (fs : List (String × JSON)),
      lookupFs fs "name" = none → parse_business h (.obj fs) = []) ∧
    (∀ (h : JSON → Int) (pre post : List JSON) (fs : List (String × JSON)),
      lookupFs fs "name" = none →
      extract_businesses h (.obj [("entities", .arr [.obj [("businesses",
          .arr (pre ++ .obj fs :: post))]])]) =
      extract_businesses h (.obj [("entities", .arr [.obj [("businesses",
          .arr (pre ++ post))]])])) := by
  constructor
  · intro h fs hlk
    exact parse_business_no_name hlk
  · intro h pre post fs hlk
    simp [extract_businesses, lookupFs, extractList, entityBusinesses, containsKey,
          pyGet, pyIter, List.flatMap_append, List.flatMap_cons,
          parse_business_no_name hlk, Bind.bind, Except.bind, Pure.pure, Except.pure]

/-- C4 witness: a concrete batch `[A, bad, B]` extracts exactly as `[A, B]`. -/
theorem c4_witness :
    parse_business hzero (.obj [("rating", .num 4)]) = [] ∧
    extract_businesses hzero (.obj [("entities", .arr [.obj [("businesses",
        .arr [.obj [("name", .str "A")], .obj [("rating", .num 4)],
              .obj [("name", .str "B")]])]])]) =
    extract_businesses hzero (.obj [("entities", .arr [.obj [("businesses",
        .arr [.obj [("name", .str "A")], .obj [("name", .str "B")]])]])]) :=
  ⟨c4_missing_name_rejected.1 hzero _ rfl,
   c4_missing_name_rejected.2 hzero [.obj [("name", .str "A")]]
     [.obj [("name", .str "B")]] [("rating", .num 4)] rfl⟩

/-- C5: when the `entities` value of the response is missing, or present
with any shape that is neither a list nor a dict (null, boolean, number,
string), `_extract_businesses` returns the empty list without raising. -/
theorem c5_entities_other_shape_empty :
    ∀ (h : JSON → Int) (fs : List (String × JSON)),
      (∀ v, lookupFs fs "entities" = some v → v.isArr = false ∧ v.isObj = false) →
      extract_businesses h (.obj fs) = .ok [] := by
  intro h fs hshape
  unfold extract_businesses
  cases hlk : lookupFs fs "entities" with
  | none => simp [hlk, extractList]
  | some v =>
    have hv := hshape v hlk
    cases v <;> simp_all [JSON.isArr, JSON.isObj]

/-- C5 witness: `entities` a number, `entities` null and `entities`
missing all give the empty extraction. -/
theorem c5_witness :
    extract_businesses hzero (.obj [("entities", .num 3)]) = .ok [] ∧
    extract_businesses hzero (.obj [("entities", .null)]) = .ok [] ∧
    extract_businesses hzero (.obj [("response", .obj [])]) = .ok [] := by
  refine ⟨?_, ?_, ?_⟩
  · exact c5_entities_other_shape_empty hzero _ (by
      intro v hv
      simp [lookupFs] at hv
      subst hv
      exact ⟨rfl, rfl⟩)
  · exact c5_entities_other_shape_empty hzero _ (by
      intro v hv
      simp [lookupFs] at hv
      subst hv
      exact ⟨rfl, rfl⟩)
  · exact c5_entities_other_shape_empty hzero _ (by
      intro v hv
      simp [lookupFs] at hv)

/-- C7: presence of the `image_url` key short-circuits image resolution:
the resolved image value is exactly the stored value, even `None`; in
particular a record with `image_url: null` and `photos: ["http://x"]`
normalizes to a null image, not to `"http://x"`. -/
theorem c7_image_url_key_short_circuits :
    (∀ (fs : List (String × JSON)) (v : JSON),
      lookupFs fs "image_url" = some v →
      resolve_image (.obj fs) = .ok v) ∧
    (parse_business hzero (.obj [("name", .str "x"), ("image_url", .null),
        ("photos", .arr [.str "http://x"])])).map Business.image = [none] := by
  constructor
  · intro fs v hlk
    have hck := containsKey_true_of_lookup hlk
    simp [resolve_image, pyContains, hck, pySubscript, hlk,
          Bind.bind, Except.bind, Pure.pure, Except.pure]
  · with_unfolding_all rfl

/-- C7 witness: the short-circuit applied at the record with a null
`image_url` and a non-empty direct `photos` list. -/
theorem c7_witness :
    resolve_image (.obj [("name", .str "x"), ("image_url", .null),
        ("photos", .arr [.str "http://x"])]) = .ok .null :=
  c7_image_url_key_short_circuits.1 _ .null rfl

/-- C1 counterexample: the record
`{name: "x", contextual_info: {}, photos: ["http://x"]}` has no
`image_url` key, its `contextual_info` yields no photo, and it has a
non-empty direct `photos` list — yet normalization yields a null image,
not `"http://x"`: the `elif` chain never reaches the direct-`photos`
branch once the `contextual_info` key is present. -/
theorem c1_counterexample :
    (parse_business hzero (.obj [("name", .str "x"), ("contextual_info", .obj []),
        ("photos", .arr [.str "http://x"])])).map Business.image = [none] ∧
    (parse_business hzero (.obj [("name", .str "x"), ("contextual_info", .obj []),
        ("photos", .arr [.str "http://x"])])).map Business.image ≠ [some "http://x"] := by
  have hmain : (parse_business hzero (.obj [("name", .str "x"),
      ("contextual_info", .obj []),
      ("photos", .arr [.str "http://x"])])).map Business.image = [none] := by
    with_unfolding_all rfl
  exact ⟨hmain, by rw [hmain]; decide⟩

/-- C1 amended: the direct `photos[0]` fallback applies only when both the
`image_url` key and the `contextual_info` key are absent; then a
non-empty direct `photos` list resolves the image from its first element
(`original_url` if the element is a mapping, the element itself if it is
a string). -/
theorem c1_direct_photos_fallback :
    ∀ (fs : List (String × JSON)) (p : JSON) (rest : List JSON),
      lookupFs fs "image_url" = none →
      lookupFs fs "contextual_info" = none →
      lookupFs fs "photos" = some (.arr (p :: rest)) →
      resolve_image (.obj fs) = .ok (pyPhotoFirst p) := by
  intro fs p rest h1 h2 h3
  have hk1 := containsKey_false_of_lookup h1
  have hk2 := containsKey_false_of_lookup h2
  have hk3 := containsKey_true_of_lookup h3
  simp [resolve_image, pyContains, hk1, hk2, hk3, pySubscript, h3, truthy,
        Bind.bind, Except.bind, Pure.pure, Except.pure]

/-- C1 witness: with no `image_url` and no `contextual_info`, a direct
string photo is used, and a direct mapping photo yields its
`original_url`. -/
theorem c1_witness :
    resolve_image (.obj [("name", .str "x"), ("photos", .arr [.str "http://x"])]) =
      .ok (.str "http://x") ∧
    resolve_image (.obj [("photos", .arr [.obj [("original_url", .str "http://a")]])]) =
      .ok (.str "http://a") :=
  ⟨c1_direct_photos_fallback _ (.str "http://x") [] rfl rfl rfl,
   c1_direct_photos_fallback _ (.obj [("original_url", .str "http://a")]) [] rfl rfl rfl⟩

/-- C3 counterexample: the derived id of a record with a `name` and no
`id`/`alias` is the string form of the built-in hash of the name, which
CPython randomizes per process: under the hash function of one run the
id is `"0"`, under another run's it is `"1"` — so the derivation is not
repeatable across runs. -/
theorem c3_counterexample :
    (parse_business hzero (.obj [("name", .str "x")])).map Business.id = ["0"] ∧
    (parse_business hone (.obj [("name", .str "x")])).map Business.id = ["1"] ∧
    (["0"] : List String) ≠ ["1"] :=
  ⟨by with_unfolding_all rfl, by with_unfolding_all rfl, by decide⟩

/-- C3 amended: id resolution uses the raw `id` when the key is present,
else the raw `alias`, else the string form of the process hash of `name`;
within one process run the derivation is a pure function of the record,
so two records with the same `name` and no `id`/`alias` receive the same
derived id — but it is not repeatable across runs (see the
counterexample), because the built-in string hash is seeded per process. -/
theorem c3_id_resolution :
    (∀ (h : JSON → Int) (fs : List (String × JSON)) (v : JSON),
      isHashable ((lookupFs fs "name").getD .null) = true →
      lookupFs fs "id" = some v →
      resolve_id h (.obj fs) = .ok v) ∧
    (∀ (h : JSON → Int) (fs : List (String × JSON)) (v : JSON),
      isHashable ((lookupFs fs "name").getD .null) = true →
      lookupFs fs "id" = none → lookupFs fs "alias" = some v →
      resolve_id h (.obj fs) = .ok v) ∧
    (∀ (h : JSON → Int) (fs : List (String × JSON)) (s : String),
      lookupFs fs "name" = some (.str s) →
      lookupFs fs "id" = none → lookupFs fs "alias" = none →
      resolve_id h (.obj fs) = .ok (.str (toString (h (.str s))))) ∧
    (∀ (h : JSON → Int) (fs1 fs2 : List (String × JSON)) (s : String),
      lookupFs fs1 "name" = some (.str s) → lookupFs fs2 "name" = some (.str s) →
      lookupFs fs1 "id" = none → lookupFs fs2 "id" = none →
      lookupFs fs1 "alias" = none → lookupFs fs2 "alias" = none →
      resolve_id h (.obj fs1) = resolve_id h (.obj fs2)) := by
  have hcase3 : ∀ (h : JSON → Int) (fs : List (String × JSON)) (s : String),
      lookupFs fs "name" = some (.str s) →
      lookupFs fs "id" = none → lookupFs fs "alias" = none →
      resolve_id h (.obj fs) = .ok (.str (toString (h (.str s)))) := by
    intro h fs s hname hid halias
    simp [resolve_id, pyGet, hname, hid, halias, pyHashVal,
          Bind.bind, Except.bind, Pure.pure, Except.pure]
  refine ⟨?_, ?_, hcase3, ?_⟩
  · intro h fs v hhash hid
    rw [show resolve_id h (.obj fs) = .ok ((lookupFs fs "id").getD
        ((lookupFs fs "alias").getD
          (.str (toString (h ((lookupFs fs "name").getD .null)))))) from ?_]
    · simp [hid]
    · simp [resolve_id, pyGet, pyHashVal_ok hhash,
            Bind.bind, Except.bind, Pure.pure, Except.pure]
  · intro h fs v hhash hid halias
    rw [show resolve_id h (.obj fs) = .ok ((lookupFs fs "id").getD
        ((lookupFs fs "alias").getD
          (.str (toString (h ((lookupFs fs "name").getD .null)))))) from ?_]
    · simp [hid, halias]
    · simp [resolve_id, pyGet, pyHashVal_ok hhash,
            Bind.bind, Except.bind, Pure.pure, Except.pure]
  · intro h fs1 fs2 s hn1 hn2 hi1 hi2 ha1 ha2
    rw [hcase3 h fs1 s hn1 hi1 ha1, hcase3 h fs2 s hn2 hi2 ha2]

/-- C3 witness: both records `{name: "x", price: "$"}` and `{name: "x"}`
derive the id `"0"` under the run-fixed hash `hzero`; a present `id` and
a present `alias` are used verbatim. -/
theorem c3_witness :
    resolve_id hzero (.obj [("name", .str "x"), ("price", .str "$")]) =
      .ok (.str (toString (hzero (.str "x")))) ∧
    resolve_id hzero (.obj [("name", .str "x")]) =
      .ok (.str (toString (hzero (.str "x")))) ∧
    resolve_id hzero (.obj [("name", .str "x"), ("id", .str "i9")]) = .ok (.str "i9") ∧
    resolve_id hzero (.obj [("name", .str "x"), ("alias", .str "al")]) = .ok (.str "al") ∧
    resolve_id hzero (.obj [("name", .str "x"), ("price", .str "$")]) =
      resolve_id hzero (.obj [("name", .str "x")]) :=
  ⟨c3_id_resolution.2.2.1 hzero _ "x" rfl rfl rfl,
   c3_id_resolution.2.2.1 hzero _ "x" rfl rfl rfl,
   c3_id_resolution.1 hzero _ (.str "i9") rfl rfl,
   c3_id_resolution.2.1 hzero _ (.str "al") rfl rfl rfl,
   c3_id_resolution.2.2.2 hzero _ _ "x" rfl rfl rfl rfl rfl rfl⟩

/-- C6: a present, truthy numeric `distance` of `q` meters yields the
canonical distance string `format1f (q * 0.000621371) ++ " mi"` (one
decimal place); an absent or falsy `distance` yields no distance field. -/
theorem c6_distance_conversion :
    (∀ (fs : List (String × JSON)) (q : ℚ),
      lookupFs fs "distance" = some (.num q) → q ≠ 0 →
      resolve_distance (.obj fs) = .ok (some (format1f (q * mileFactor) ++ " mi"))) ∧
    (∀ (fs : List (String × JSON)),
      (lookupFs fs "distance" = none ∨
       ∃ v, lookupFs fs "distance" = some v ∧ truthy v = false) →
      resolve_distance (.obj fs) = .ok none) := by
  constructor
  · intro fs q hlk hq
    have hck := containsKey_true_of_lookup hlk
    simp [resolve_distance, pyContains, hck, pySubscript, hlk, truthy, hq, pyMulFloat,
          Bind.bind, Except.bind, Pure.pure, Except.pure]
  · intro fs hcase
    rcases hcase with hnone | ⟨v, hlk, hfal⟩
    · have hck := containsKey_false_of_lookup hnone
      simp [resolve_distance, pyContains, hck,
            Bind.bind, Except.bind, Pure.pure, Except.pure]
    · have hck := containsKey_true_of_lookup hlk
      simp [resolve_distance, pyContains, hck, pySubscript, hlk, hfal,
            Bind.bind, Except.bind, Pure.pure, Except.pure]

/-- C6 witness: `1609.34` meters formats as `"1.0 mi"`, and a raw
distance of `0` leaves the distance absent. -/
theorem c6_witness :
    resolve_distance (.obj [("name", .str "a"), ("distance", .num (160934 / 100))]) =
      .ok (some "1.0 mi") ∧
    resolve_distance (.obj [("name", .str "a"), ("distance", .num 0)]) = .ok none := by
  constructor
  · have h1 := c6_distance_conversion.1
      [("name", .str "a"), ("distance", .num (160934 / 100))] (160934 / 100) rfl
      (by norm_num)
    rw [h1]
    have : format1f ((160934 / 100 : ℚ) * mileFactor) ++ " mi" = "1.0 mi" := by
      with_unfolding_all decide
    rw [this]
  · exact c6_distance_conversion.2 _ (Or.inr ⟨.num 0, rfl, by decide⟩)

/-- C8: a list-shaped `entities` mixing direct-business entities (a
`name` key, no `businesses` key) and wrapper entities with a nested
`businesses` list flattens all businesses in encounter order, each
wrapper's businesses emitted in place, in their own order. -/
theorem c8_flatten_encounter_order :
    ∀ (h : JSON → Int) (d1 d2 : List (String × JSON)) (v1 v2 : JSON) (bs : List JSON),
      lookupFs d1 "businesses" = none → lookupFs d1 "name" = some v1 →
      lookupFs d2 "businesses" = none → lookupFs d2 "name" = some v2 →
      extract_businesses h (.obj [("entities", .arr
        [.obj d1, .obj [("businesses", .arr bs)], .obj d2])]) =
      .ok (parse_business h (.obj d1) ++ bs.flatMap (parse_business h)
            ++ parse_business h (.obj d2)) := by
  intro h d1 d2 v1 v2 bs hb1 hn1 hb2 hn2
  simp only [lookupFs] at hb1 hn1 hb2 hn2
  simp [extract_businesses, lookupFs, extractList, entityBusinesses, containsKey,
        hb1, hn1, hb2, hn2, pyGet, pyIter,
        Bind.bind, Except.bind, Pure.pure, Except.pure, List.append_assoc]

/-- C8 witness: the concrete mixed batch `[A, {businesses: [B1, B2]}, C]`
extracts to `[A, B1, B2, C]`. -/
theorem c8_witness :
    extract_businesses hzero (.obj [("entities", .arr
        [.obj [("name", .str "A")],
         .obj [("businesses", .arr [.obj [("name", .str "B1")],
                                    .obj [("name", .str "B2")]])],
         .obj [("name", .str "C")]])]) =
      .ok (parse_business hzero (.obj [("name", .str "A")])
            ++ ([.obj [("name", .str "B1")], .obj [("name", .str "B2")]] : List JSON).flatMap
                 (parse_business hzero)
            ++ parse_business hzero (.obj [("name", .str "C")])) ∧
    (extract_businesses hzero (.obj [("entities", .arr
        [.obj [("name", .str "A")],
         .obj [("businesses", .arr [.obj [("name", .str "B1")],
                                    .obj [("name", .str "B2")]])],
         .obj [("name", .str "C")]])])).map (fun l => l.map Business.name) =
      .ok ["A", "B1", "B2", "C"] := by
  have hmain := c8_flatten_encounter_order hzero [("name", .str "A")] [("name", .str "C")]
    (.str "A") (.str "C")
    [.obj [("name", .str "B1")], .obj [("name", .str "B2")]] rfl rfl rfl rfl
  exact ⟨hmain, by rw [hmain]; with_unfolding_all rfl⟩

/-- C9: a record with a `name` but an `id` key stored as null is rejected
whole: the null is passed through id resolution verbatim (not replaced by
the `alias` or the name hash), fails the `Business` string validation,
and the record is dropped. -/
theorem c9_null_id_rejects :
    ∀ (h : JSON → Int) (fs : List (String × JSON)) (nv : JSON),
      lookupFs fs "name" = some nv →
      lookupFs fs "id" = some .null →
      parse_business h (.obj fs) = [] ∧
      (isHashable nv = true → resolve_id h (.obj fs) = .ok .null) := by
  intro h fs nv hname hid
  refine ⟨parse_business_null_id hid, fun hhash => ?_⟩
  have hh : isHashable ((lookupFs fs "name").getD .null) = true := by
    rw [hname]; exact hhash
  simp [resolve_id, pyGet, pyHashVal_ok hh, hid,
        Bind.bind, Except.bind, Pure.pure, Except.pure]

/-- C9 witness: the record `{name: "x", id: null, alias: "al"}` resolves
a null id (the alias is not consulted) and is dropped. -/
theorem c9_witness :
    parse_business hzero (.obj [("name", .str "x"), ("id", .null),
        ("alias", .str "al")]) = [] ∧
    resolve_id hzero (.obj [("name", .str "x"), ("id", .null),
        ("alias", .str "al")]) = .ok .null :=
  have hmain := c9_null_id_rejects hzero
    [("name", .str "x"), ("id", .null), ("alias", .str "al")] (.str "x") rfl rfl
  ⟨hmain.1, hmain.2 rfl⟩

/-- C10: `_parse_business` is total on arbitrary JSON elements of a
nested `businesses` list: it contributes one business or nothing (never
raises, by the blanket `except`), a non-mapping element always
contributes nothing, and extracting a wrapper whose `businesses` value is
a list never raises, concatenating the per-element results. -/
theorem c10_parse_total :
    ∀ (h : JSON → Int) (j : JSON),
      (parse_business h j = [] ∨ ∃ b, parse_business h j = [b]) ∧
      (j.isObj = false → parse_business h j = []) ∧
      (∀ bs : List JSON, entityBusinesses h (.obj [("businesses", .arr bs)]) =
         .ok (bs.flatMap (parse_business h))) := by
  intro h j
  refine ⟨?_, fun hno => parse_business_nonobj hno, ?_⟩
  · unfold parse_business
    cases hcore : parse_business_core h j with
    | error m => exact Or.inl rfl
    | ok l =>
      rcases parse_business_core_ok_shape hcore with h1 | ⟨b, h1⟩
      · exact Or.inl h1
      · exact Or.inr ⟨b, h1⟩
  · intro bs
    simp [entityBusinesses, containsKey, lookupFs, pyGet, pyIter,
          Bind.bind, Except.bind, Pure.pure, Except.pure]

/-- C10 witness: a number, a string and a list element each contribute
nothing; a wrapper with a mixed `businesses` list extracts to the
concatenation of the per-element results without raising. -/
theorem c10_witness :
    parse_business hzero (.num 3) = [] ∧
    parse_business hzero (.str "a name here") = [] ∧
    parse_business hzero (.arr [.str "name"]) = [] ∧
    entityBusinesses hzero (.obj [("businesses",
        .arr [.num 3, .null, .str "s", .obj [("name", .str "B")]])]) =
      .ok (([.num 3, .null, .str "s", .obj [("name", .str "B")]] : List JSON).flatMap
            (parse_business hzero)) :=
  ⟨(c10_parse_total hzero (.num 3)).2.1 rfl,
   (c10_parse_total hzero (.str "a name here")).2.1 rfl,
   (c10_parse_total hzero (.arr [.str "name"])).2.1 rfl,
   (c10_parse_total hzero .null).2.2 _⟩
